import Mathlib

/-!
Shallow embedding of the black-swan detector of
`src/modules/black_swan_detector.py` (class `BlackSwanDetector`).

Modelling conventions:
* Real-valued quantities of the Python code (prices, volumes, returns,
  thresholds, severities) are modelled over `ℚ`; floating point is idealised
  as exact rational arithmetic.
* `datetime.now()` values are modelled as a single rational time stamp `now`
  measured in minutes, so that `timedelta(minutes=m)` becomes addition of `m`.
  `datetime.now().date()` is modelled as an integer day number.
* `np.sqrt` (used only through the annualisation factors and the standard
  deviations) is abstracted as a function argument `rsqrt : ℚ → ℚ`; every
  theorem is proved for an arbitrary such function, hence in particular for
  the true square root, because the control flow of the code never depends
  on properties of the square root.
* Python division by zero on rationals is total division (`x / 0 = 0`); the
  code paths exercised by the claims never divide by zero on the inputs the
  theorems quantify over.
* The notification callbacks are modelled as values carrying a predicate
  telling on which events the callback raises an exception; invoking the
  callbacks is modelled by the list of invocations performed, each recording
  the event passed and whether that call raised.
-/

namespace BlackSwan

abbrev Symbol := String

/-- Configuration values read in `BlackSwanDetector.__init__` from `config`.
`max_event_history` is the hard coded instance attribute `100`. -/
structure Config where
  volatility_threshold : ℚ
  volume_threshold : ℚ
  correlation_threshold : ℚ
  max_alerts_per_day : ℕ
  alert_cooldown_minutes : ℚ
deriving DecidableEq

/-- The defaults of `__init__`: 3.5, 5.0, 0.85, 3, 60. -/
def defaultConfig : Config :=
  { volatility_threshold := 7/2
    volume_threshold := 5
    correlation_threshold := 17/20
    max_alerts_per_day := 3
    alert_cooldown_minutes := 60 }

/-- `self.max_event_history = 100` (hard coded in `__init__`). -/
def max_event_history : ℕ := 100

inductive AlertType
  | volatility
  | volume
  | correlation
deriving DecidableEq

/-- A raw signal-level alert as built in `_check_volatility`, `_check_volume`
and `_check_correlation_breakdown`: type, optional symbol (absent for the
correlation type), timestamp, severity and the triggering ratio/threshold
pair from the `details` dict. -/
structure Alert where
  type : AlertType
  symbol : Option Symbol
  timestamp : ℚ
  severity : ℚ
  trigger_value : ℚ
  threshold : ℚ
deriving DecidableEq

/-- `_calculate_severity(alert_type, value)`: linear ramp above the threshold,
clipped into [0,1] by `min(1.0, max(0.0, ...))`. -/
def calculate_severity (cfg : Config) (alert_type : AlertType) (value : ℚ) : ℚ :=
  match alert_type with
  | .volatility =>
      min 1 (max 0 ((value - cfg.volatility_threshold) / (2 * cfg.volatility_threshold)))
  | .volume =>
      min 1 (max 0 ((value - cfg.volume_threshold) / (3 * cfg.volume_threshold)))
  | .correlation =>
      let threshold := 1 - cfg.correlation_threshold
      min 1 (max 0 ((value - threshold) / (1 - threshold)))

/-- The `clip(x, lo, hi)` function of the specification text (spec-side
definition, used to compare the code against the words of the spec). -/
def clip (x lo hi : ℚ) : ℚ := max lo (min hi x)

/-- A composite event as assembled in `_handle_alerts` (`combined_alert`):
maximal severity of the constituent alerts, timestamp, list of raw alerts.
The constant `title`/`message` strings are presentation only and omitted. -/
structure CompositeEvent where
  severity : ℚ
  timestamp : ℚ
  details : List Alert
deriving DecidableEq

/-- Python `max(xs, default=d)`. -/
def listMaxD (l : List ℚ) (d : ℚ) : ℚ :=
  match l with
  | [] => d
  | x :: xs => xs.foldl max x

/-- A registered notification callback; `raises ev` tells whether calling it
on `ev` raises an exception (which `_handle_alerts` catches and logs). -/
structure Callback where
  raises : CompositeEvent → Bool

/-- One performed callback invocation: the event that was passed and whether
the call raised (the exception is caught inside the loop). -/
structure Invocation where
  event : CompositeEvent
  raised : Bool

/-- The mutable detector attributes relevant to the alert pipeline
(`is_monitoring`, `last_check_time`, `last_alert_time`, `alert_count_today`,
`reset_date`, `detected_events`). -/
structure DetectorState where
  is_monitoring : Bool
  last_check_time : Option ℚ
  last_alert_time : Option ℚ
  alert_count_today : ℕ
  reset_date : ℤ
  detected_events : List CompositeEvent
deriving DecidableEq

/-- The state set up by `__init__` (day `d` is `datetime.now().date()`). -/
def initState (d : ℤ) : DetectorState :=
  { is_monitoring := false
    last_check_time := none
    last_alert_time := none
    alert_count_today := 0
    reset_date := d
    detected_events := [] }

/-- The cooldown test of `_handle_alerts`: `self.last_alert_time` truthy and
`datetime.now() < self.last_alert_time + timedelta(minutes=cooldown)`. -/
def cooldownActive (cfg : Config) (st : DetectorState) (now : ℚ) : Bool :=
  match st.last_alert_time with
  | none => false
  | some t => decide (now < t + cfg.alert_cooldown_minutes)

/-- Result of one `_handle_alerts` call: the detector state afterwards, the
composite event dispatched (if any) and the callback invocations made. -/
structure HandleResult where
  state : DetectorState
  dispatched : Option CompositeEvent
  invocations : List Invocation

/-- The `combined_alert` dict built in `_handle_alerts`. -/
def combined_alert (now : ℚ) (alerts : List Alert) : CompositeEvent :=
  { severity := listMaxD (alerts.map Alert.severity) 0
    timestamp := now
    details := alerts }

/-- The history truncation of `_handle_alerts`:
`if len(detected_events) > max_event_history: detected_events = detected_events[-max_event_history:]`. -/
def truncHist (l : List CompositeEvent) : List CompositeEvent :=
  if l.length > max_event_history then l.drop (l.length - max_event_history) else l

/-- `_handle_alerts(alerts)`, called from `_check_market_conditions` only when
`alerts` is non-empty.  Checks the daily limit, then the cooldown; on
dispatch it appends the combined alert to `detected_events`, truncates the
history to the last `max_event_history` entries (`[-100:]`), sets
`last_alert_time = now`, increments `alert_count_today`, and then calls every
registered callback with the combined alert, catching exceptions per call. -/
def handle_alerts (cfg : Config) (st : DetectorState) (cbs : List Callback)
    (now : ℚ) (alerts : List Alert) : HandleResult :=
  if st.alert_count_today ≥ cfg.max_alerts_per_day then
    { state := st, dispatched := none, invocations := [] }
  else if cooldownActive cfg st now then
    { state := st, dispatched := none, invocations := [] }
  else
    let ev := combined_alert now alerts
    let events2 := truncHist (st.detected_events ++ [ev])
    { state :=
        { st with
          detected_events := events2
          last_alert_time := some now
          alert_count_today := st.alert_count_today + 1 }
      dispatched := some ev
      invocations := cbs.map fun cb => { event := ev, raised := cb.raises ev } }

/-! ### Statistics helpers (pandas/numpy operations used by the evaluators) -/

/-- `series.mean()`; the empty series gives `0/0 = 0` here (pandas: `NaN`,
which makes every later threshold comparison false, as does `0` here on the
paths the theorems use). -/
def meanQ (l : List ℚ) : ℚ := l.sum / (l.length : ℚ)

/-- The sample variance underlying `series.std()` (pandas default
`ddof=1`). -/
def sampleVarQ (l : List ℚ) : ℚ :=
  (l.map fun x => (x - meanQ l) ^ 2).sum / ((l.length : ℚ) - 1)

/-- `series.pct_change().dropna()`: fractional period-over-period changes,
with the leading `NaN` dropped. -/
def pct_change : List ℚ → List ℚ
  | [] => []
  | [_] => []
  | a :: b :: rest => (b / a - 1) :: pct_change (b :: rest)

/-- Centered product sum `Σ (xᵢ - x̄)(yᵢ - ȳ)` over the zipped series, the
kernel of the Pearson correlation used by `DataFrame.corr()`. -/
def covSumQ (x y : List ℚ) : ℚ :=
  ((x.zip y).map fun p => (p.1 - meanQ x) * (p.2 - meanQ y)).sum

/-- Pearson correlation of two aligned series,
`Σ dx·dy / sqrt(Σ dx² · Σ dy²)`, with `np.sqrt` abstracted as `rsqrt`. -/
def corrQ (rsqrt : ℚ → ℚ) (x y : List ℚ) : ℚ :=
  covSumQ x y / rsqrt (covSumQ x x * covSumQ y y)

/-! ### Baselines and market data -/

/-- One OHLCV bar, reduced to the fields the modelled operations read
(`close` and `volume`; `high`/`low` feed only the ATR presentation field of
`manual_check`, which is omitted). -/
structure Bar where
  close : ℚ
  volume : ℚ
deriving DecidableEq

abbrev BarSeries := List Bar

/-- Mapping from symbol to its recent intraday bars, as assembled in
`_check_market_conditions` (insertion ordered, unique keys). -/
abbrev CurrentData := List (Symbol × BarSeries)

/-- The per-symbol entry of `self.historical_stats` as computed in
`_load_historical_reference_data`.  The percentile tables of the source are
never read by any evaluator and are omitted. -/
structure SymbolStats where
  mean_returns : ℚ
  std_returns : ℚ
  mean_volume : ℚ
  std_volume : ℚ
deriving DecidableEq

/-- `self.historical_stats` (a dict: unique keys, insertion ordered). -/
abbrev HistStats := List (Symbol × SymbolStats)

/-- Dict membership plus indexing: `symbol in stats` / `stats[symbol]`. -/
def lookupStats : HistStats → Symbol → Option SymbolStats
  | [], _ => none
  | (s, v) :: rest, sym => if s = sym then some v else lookupStats rest sym

/-! ### Signal evaluators -/

/-- The `volatility_ratio` of `_check_volatility`: intraday-return standard
deviation annualised by `np.sqrt(24)`, divided by the baseline daily-return
standard deviation annualised by `np.sqrt(252)`. -/
def volatility_ratio_val (rsqrt : ℚ → ℚ) (stats : SymbolStats) (data : BarSeries) : ℚ :=
  let current_returns := pct_change (data.map Bar.close)
  let current_volatility := rsqrt (sampleVarQ current_returns) * rsqrt 24
  let historical_volatility := stats.std_returns * rsqrt 252
  current_volatility / historical_volatility

/-- The body of the `for symbol, data in current_data.items()` loop of
`_check_volatility` for one symbol: no baseline entry means no alert,
otherwise an alert exactly when the ratio exceeds the threshold. -/
def volAlertsFor (cfg : Config) (rsqrt : ℚ → ℚ) (hist : HistStats) (now : ℚ)
    (sym : Symbol) (data : BarSeries) : List Alert :=
  match lookupStats hist sym with
  | none => []
  | some stats =>
      let vr := volatility_ratio_val rsqrt stats data
      if vr > cfg.volatility_threshold then
        [{ type := .volatility
           symbol := some sym
           timestamp := now
           severity := calculate_severity cfg .volatility vr
           trigger_value := vr
           threshold := cfg.volatility_threshold }]
      else []

/-- `_check_volatility(current_data)`. -/
def check_volatility (cfg : Config) (rsqrt : ℚ → ℚ) (hist : HistStats) (now : ℚ)
    (cd : CurrentData) : List Alert :=
  cd.flatMap fun p => volAlertsFor cfg rsqrt hist now p.1 p.2

/-- The `volume_ratio` of `_check_volume`: most recent bar volume divided by
the baseline mean volume. -/
def volume_ratio_val (stats : SymbolStats) (data : BarSeries) : ℚ :=
  match (data.map Bar.volume).getLast? with
  | none => 0
  | some current_volume => current_volume / stats.mean_volume

/-- The loop body of `_check_volume` for one symbol.  On an empty series,
`data['volume'].iloc[-1]` raises `IndexError`, which the per-symbol
`except` catches (no alert). -/
def volumeAlertsFor (cfg : Config) (hist : HistStats) (now : ℚ)
    (sym : Symbol) (data : BarSeries) : List Alert :=
  match (data.map Bar.volume).getLast? with
  | none => []
  | some _ =>
      match lookupStats hist sym with
      | none => []
      | some stats =>
          let vr := volume_ratio_val stats data
          if vr > cfg.volume_threshold then
            [{ type := .volume
               symbol := some sym
               timestamp := now
               severity := calculate_severity cfg .volume vr
               trigger_value := vr
               threshold := cfg.volume_threshold }]
          else []

/-- `_check_volume(current_data)`. -/
def check_volume (cfg : Config) (hist : HistStats) (now : ℚ)
    (cd : CurrentData) : List Alert :=
  cd.flatMap fun p => volumeAlertsFor cfg hist now p.1 p.2

/-- The baseline correlation matrix `self.correlation_matrix`, modelled as a
total map on symbol pairs (the source stores a labelled `DataFrame`; the
renaming `/ : → _` applied identically to both matrices is dropped).  `none`
models the attribute being absent (`hasattr` false) before the first
successful historical load. -/
abbrev CorrMatrix := Symbol → Symbol → ℚ

/-- `correlation_change` of `_check_correlation_breakdown`:
`np.abs(current_corr - self.correlation_matrix).mean().mean()`, the mean of
the column means of the absolute element-wise differences.  The intraday
close series are aligned by construction (equal-length series fetched with
the same `limit` and timeframe). -/
def correlation_change_val (rsqrt : ℚ → ℚ) (base : CorrMatrix) (cd : CurrentData) : ℚ :=
  let rets := cd.map fun p => (p.1, pct_change (p.2.map Bar.close))
  meanQ (rets.map fun c => meanQ (rets.map fun r => |corrQ rsqrt r.2 c.2 - base r.1 c.1|))

/-- `_check_correlation_breakdown(current_data)`: nothing unless at least two
symbols have current data and `self.correlation_matrix` exists; otherwise at
most one alert, carrying no symbol, exactly when the mean absolute
correlation drift exceeds `1 - correlation_threshold`. -/
def check_correlation_breakdown (cfg : Config) (rsqrt : ℚ → ℚ)
    (baseline : Option CorrMatrix) (now : ℚ) (cd : CurrentData) : List Alert :=
  if cd.length < 2 then []
  else
    match baseline with
    | none => []
    | some base =>
        let change := correlation_change_val rsqrt base cd
        if change > 1 - cfg.correlation_threshold then
          [{ type := .correlation
             symbol := none
             timestamp := now
             severity := calculate_severity cfg .correlation change
             trigger_value := change
             threshold := 1 - cfg.correlation_threshold }]
        else []

/-! ### The evaluation tick and the monitoring loop -/

/-- A tick that dispatches nothing and changes nothing. -/
def noHandle (st : DetectorState) : HandleResult :=
  { state := st, dispatched := none, invocations := [] }

/-- The data-collection loop at the top of `_check_market_conditions`:
symbols whose fetch returned `None` or an empty frame are skipped. -/
def gatherCurrentData (fetched : List (Symbol × Option BarSeries)) : CurrentData :=
  fetched.filterMap fun p =>
    match p.2 with
    | some d => if d.isEmpty then none else some (p.1, d)
    | none => none

/-- `_check_market_conditions()`: gather current data, run the three
evaluators, concatenate their alerts, and call `_handle_alerts` exactly when
the list is non-empty. -/
def check_market_conditions (cfg : Config) (rsqrt : ℚ → ℚ) (hist : HistStats)
    (baseline : Option CorrMatrix) (st : DetectorState) (cbs : List Callback)
    (now : ℚ) (fetched : List (Symbol × Option BarSeries)) : HandleResult :=
  let cd := gatherCurrentData fetched
  let alerts :=
    check_volatility cfg rsqrt hist now cd
      ++ check_volume cfg hist now cd
      ++ check_correlation_breakdown cfg rsqrt baseline now cd
  if alerts.isEmpty then noHandle st else handle_alerts cfg st cbs now alerts

/-- One iteration of `_monitoring_loop` (the body of the `while` up to the
`sleep`): first the midnight reset check (`current_date > self.reset_date`),
then `_check_market_conditions`, then `last_check_time = now`. -/
def monitoring_iteration (cfg : Config) (rsqrt : ℚ → ℚ) (hist : HistStats)
    (baseline : Option CorrMatrix) (cbs : List Callback) (st : DetectorState)
    (current_date : ℤ) (now : ℚ) (fetched : List (Symbol × Option BarSeries)) :
    DetectorState × HandleResult :=
  let st1 :=
    if current_date > st.reset_date then
      { st with alert_count_today := 0, reset_date := current_date }
    else st
  let r := check_market_conditions cfg rsqrt hist baseline st1 cbs now fetched
  ({ r.state with last_check_time := some now }, r)

/-! ### Manual check -/

/-- The result dict of `manual_check`; `ok` is `status == 'success'`.  The
presentation fields (`current_price`, `price_change_24h`, `atr`,
`volatility`) are omitted.  `notification_suppressed`/`suppression_reason`
are absent from the dict unless set: absence is modelled as
`false`/`none`. -/
structure ManualResult where
  ok : Bool
  alerts : List Alert
  alert_count : ℕ
  notification_suppressed : Bool
  suppression_reason : Option String
deriving DecidableEq

/-- `manual_check(symbol)`: fetch data for the one symbol (`data` is the
fetch result, `none` for `None`), run the volatility and volume evaluators
on the singleton mapping, and report — without touching any detector state
and without calling any notification callback — whether a real notification
would have been suppressed and why. -/
def manual_check (cfg : Config) (rsqrt : ℚ → ℚ) (hist : HistStats)
    (st : DetectorState) (now : ℚ) (symbol : Symbol) (data : Option BarSeries) :
    DetectorState × ManualResult × List Invocation :=
  match data with
  | none =>
      (st, { ok := false, alerts := [], alert_count := 0,
             notification_suppressed := false, suppression_reason := none }, [])
  | some d =>
      if d.isEmpty then
        (st, { ok := false, alerts := [], alert_count := 0,
               notification_suppressed := false, suppression_reason := none }, [])
      else
        let cd : CurrentData := [(symbol, d)]
        let alerts :=
          check_volatility cfg rsqrt hist now cd ++ check_volume cfg hist now cd
        let res : ManualResult :=
          { ok := true, alerts := alerts, alert_count := alerts.length,
            notification_suppressed := false, suppression_reason := none }
        if alerts ≠ [] ∧
            (st.alert_count_today ≥ cfg.max_alerts_per_day ∨ cooldownActive cfg st now) then
          (st,
           { res with
             notification_suppressed := true
             suppression_reason :=
               some (if st.alert_count_today ≥ cfg.max_alerts_per_day then
                       "daily_limit"
                     else "cooldown") }, [])
        else (st, res, [])

/-! ### Reachable detector states -/

/-- `start_monitoring` on the state fields we track (sets the flag). -/
def startFlag (st : DetectorState) : DetectorState := { st with is_monitoring := true }

/-- `stop_monitoring` on the state fields we track (clears the flag). -/
def stopFlag (st : DetectorState) : DetectorState := { st with is_monitoring := false }

/-- The detector states reachable from `__init__` through the state-mutating
entry points: monitoring-loop iterations, manual checks, start and stop. -/
inductive Reach (cfg : Config) : DetectorState → Prop
  | init (d : ℤ) : Reach cfg (initState d)
  | tick (rsqrt : ℚ → ℚ) (hist : HistStats) (baseline : Option CorrMatrix)
      (cbs : List Callback) (st : DetectorState) (current_date : ℤ) (now : ℚ)
      (fetched : List (Symbol × Option BarSeries)) :
      Reach cfg st →
      Reach cfg (monitoring_iteration cfg rsqrt hist baseline cbs st current_date now fetched).1
  | manual (rsqrt : ℚ → ℚ) (hist : HistStats) (st : DetectorState) (now : ℚ)
      (sym : Symbol) (data : Option BarSeries) :
      Reach cfg st → Reach cfg (manual_check cfg rsqrt hist st now sym data).1
  | startStep (st : DetectorState) : Reach cfg st → Reach cfg (startFlag st)
  | stopStep (st : DetectorState) : Reach cfg st → Reach cfg (stopFlag st)

/-! ## Helper lemmas -/

lemma le_foldl_max (l : List ℚ) : ∀ a : ℚ, a ≤ l.foldl max a := by
  induction l with
  | nil => intro a; exact le_refl a
  | cons x xs ih => intro a; exact le_trans (le_max_left a x) (ih (max a x))

lemma foldl_max_of_mem (l : List ℚ) : ∀ a x : ℚ, x ∈ l → x ≤ l.foldl max a := by
  induction l with
  | nil => intro a x hx; cases hx
  | cons y ys ih =>
      intro a x hx
      rcases List.mem_cons.mp hx with h | h
      · subst h; exact le_trans (le_max_right a x) (le_foldl_max ys (max a x))
      · exact ih (max a y) x h

lemma foldl_max_mem (l : List ℚ) : ∀ a : ℚ, l.foldl max a = a ∨ l.foldl max a ∈ l := by
  induction l with
  | nil => intro a; exact Or.inl rfl
  | cons x xs ih =>
      intro a
      rcases ih (max a x) with h | h
      · rcases max_choice a x with hm | hm
        · left; rw [List.foldl_cons, h, hm]
        · right; rw [List.foldl_cons, h, hm]; exact List.mem_cons_self x xs
      · right; rw [List.foldl_cons]; exact List.mem_cons_of_mem x h

lemma listMaxD_mem (l : List ℚ) (d : ℚ) (h : l ≠ []) : listMaxD l d ∈ l := by
  cases l with
  | nil => exact absurd rfl h
  | cons x xs =>
      rcases foldl_max_mem xs x with h1 | h1
      · rw [listMaxD, h1]; exact List.mem_cons_self x xs
      · rw [listMaxD]; exact List.mem_cons_of_mem x h1

lemma le_listMaxD (l : List ℚ) (d x : ℚ) (hx : x ∈ l) : x ≤ listMaxD l d := by
  cases l with
  | nil => cases hx
  | cons y ys =>
      rcases List.mem_cons.mp hx with h | h
      · subst h; rw [listMaxD]; exact le_foldl_max ys x
      · rw [listMaxD]; exact foldl_max_of_mem ys y x h

lemma truncHist_suffix (l : List CompositeEvent) : truncHist l <:+ l := by
  unfold truncHist
  split
  · exact List.drop_suffix _ _
  · exact List.suffix_refl l

lemma truncHist_length (l : List CompositeEvent) :
    (truncHist l).length = min l.length max_event_history := by
  unfold truncHist
  split
  · rename_i h
    rw [List.length_drop]
    omega
  · rename_i h
    omega

lemma truncHist_concat_getLast (l : List CompositeEvent) (a : CompositeEvent) :
    (truncHist (l ++ [a])).getLast? = some a := by
  unfold truncHist max_event_history
  split
  · rename_i h
    rw [List.length_append, List.length_singleton] at h
    rw [List.drop_append_eq_append_drop]
    have h0 : (l ++ [a]).length - 100 - l.length = 0 := by
      rw [List.length_append, List.length_singleton]
      omega
    rw [h0, List.drop_zero]
    exact List.getLast?_concat _
  · exact List.getLast?_concat _

lemma min_one_max_zero (x : ℚ) : min 1 (max 0 x) = clip x 0 1 := by
  unfold clip
  rw [max_min_distrib_left]
  norm_num

lemma handle_alerts_daily_limit (cfg : Config) (st : DetectorState) (cbs : List Callback)
    (now : ℚ) (alerts : List Alert) (h : st.alert_count_today ≥ cfg.max_alerts_per_day) :
    handle_alerts cfg st cbs now alerts = noHandle st := by
  unfold handle_alerts noHandle
  rw [if_pos h]

lemma handle_alerts_cooldown (cfg : Config) (st : DetectorState) (cbs : List Callback)
    (now : ℚ) (alerts : List Alert) (hc : st.alert_count_today < cfg.max_alerts_per_day)
    (hcool : cooldownActive cfg st now = true) :
    handle_alerts cfg st cbs now alerts = noHandle st := by
  unfold handle_alerts noHandle
  rw [if_neg (Nat.not_le.mpr hc), if_pos hcool]

lemma handle_alerts_dispatch_eq (cfg : Config) (st : DetectorState) (cbs : List Callback)
    (now : ℚ) (alerts : List Alert)
    (hc : st.alert_count_today < cfg.max_alerts_per_day)
    (hcool : cooldownActive cfg st now = false) :
    handle_alerts cfg st cbs now alerts =
      { state :=
          { st with
            detected_events := truncHist (st.detected_events ++ [combined_alert now alerts])
            last_alert_time := some now
            alert_count_today := st.alert_count_today + 1 }
        dispatched := some (combined_alert now alerts)
        invocations := cbs.map fun cb =>
          { event := combined_alert now alerts
            raised := cb.raises (combined_alert now alerts) } } := by
  unfold handle_alerts
  rw [if_neg (Nat.not_le.mpr hc), if_neg (by rw [hcool]; exact Bool.false_ne_true)]

/-- A sample raw alert used by the concrete witnesses. -/
def alertA : Alert :=
  { type := .volatility
    symbol := some "BTC/USDT:USDT"
    timestamp := 0
    severity := 1/10
    trigger_value := 21/5
    threshold := 7/2 }

/-! ## Claims -/

/-- C3: the severity scorer maps a raw trigger value to a severity clipped to
[0,1] by exactly the three spec formulas, and on the default thresholds the
scenario values hold: volatility ratio 4.2 gives 0.1, volume ratio 6.0 gives
1/15, correlation change 0.20 gives 0.05/0.85 = 1/17. -/
theorem c3_severity_scorer_formulas :
    (∀ (cfg : Config) (value : ℚ),
      calculate_severity cfg .volatility value
        = clip ((value - cfg.volatility_threshold) / (2 * cfg.volatility_threshold)) 0 1 ∧
      calculate_severity cfg .volume value
        = clip ((value - cfg.volume_threshold) / (3 * cfg.volume_threshold)) 0 1 ∧
      calculate_severity cfg .correlation value
        = clip ((value - (1 - cfg.correlation_threshold))
            / (1 - (1 - cfg.correlation_threshold))) 0 1) ∧
    calculate_severity defaultConfig .volatility (21/5) = 1/10 ∧
    calculate_severity defaultConfig .volume 6 = 1/15 ∧
    calculate_severity defaultConfig .correlation (1/5) = 1/17 := by
  refine ⟨fun cfg value => ⟨?_, ?_, ?_⟩, ?_, ?_, ?_⟩
  · exact min_one_max_zero _
  · exact min_one_max_zero _
  · exact min_one_max_zero _
  · show min (1:ℚ) (max 0 ((21/5 - 7/2) / (2 * (7/2)))) = 1/10
    rw [show ((21:ℚ)/5 - 7/2) / (2 * (7/2)) = 1/10 by norm_num,
      max_eq_right (by norm_num), min_eq_right (by norm_num)]
  · show min (1:ℚ) (max 0 ((6 - 5) / (3 * 5))) = 1/15
    rw [show ((6:ℚ) - 5) / (3 * 5) = 1/15 by norm_num,
      max_eq_right (by norm_num), min_eq_right (by norm_num)]
  · show min (1:ℚ) (max 0 ((1/5 - (1 - 17/20)) / (1 - (1 - 17/20)))) = 1/17
    rw [show ((1:ℚ)/5 - (1 - 17/20)) / (1 - (1 - 17/20)) = 1/17 by norm_num,
      max_eq_right (by norm_num), min_eq_right (by norm_num)]

/-- C1: on a tick with alerts, the gate suppresses with no state change, no
dispatched event, and no callback invocation, first when the daily limit is
reached and otherwise when the cooldown is still running; consequently two
qualifying ticks within the cooldown window starting from an accepting state
dispatch exactly once. -/
theorem c1_gate_suppression_single_dispatch (cfg : Config) (st : DetectorState)
    (cbs : List Callback) (now : ℚ) (alerts : List Alert) :
    (st.alert_count_today ≥ cfg.max_alerts_per_day →
      handle_alerts cfg st cbs now alerts = noHandle st) ∧
    (st.alert_count_today < cfg.max_alerts_per_day →
      ∀ t : ℚ, st.last_alert_time = some t → now < t + cfg.alert_cooldown_minutes →
        handle_alerts cfg st cbs now alerts = noHandle st) ∧
    (∀ (now2 : ℚ) (alerts2 : List Alert), alerts ≠ [] →
      st.alert_count_today < cfg.max_alerts_per_day →
      cooldownActive cfg st now = false →
      now ≤ now2 → now2 < now + cfg.alert_cooldown_minutes →
      (handle_alerts cfg st cbs now alerts).dispatched = some (combined_alert now alerts) ∧
      handle_alerts cfg (handle_alerts cfg st cbs now alerts).state cbs now2 alerts2
        = noHandle (handle_alerts cfg st cbs now alerts).state) := by
  refine ⟨?_, ?_, ?_⟩
  · intro h
    exact handle_alerts_daily_limit cfg st cbs now alerts h
  · intro hc t ht hlt
    apply handle_alerts_cooldown cfg st cbs now alerts hc
    unfold cooldownActive
    rw [ht]
    exact decide_eq_true hlt
  · intro now2 alerts2 _ hc hcool _ hlt2
    rw [handle_alerts_dispatch_eq cfg st cbs now alerts hc hcool]
    refine ⟨rfl, ?_⟩
    by_cases h2 : st.alert_count_today + 1 ≥ cfg.max_alerts_per_day
    · exact handle_alerts_daily_limit _ _ _ _ _ h2
    · apply handle_alerts_cooldown _ _ _ _ _
        (by show st.alert_count_today + 1 < cfg.max_alerts_per_day; omega)
      exact decide_eq_true hlt2

/-- Witness for C1: from a fresh state, a qualifying tick at time 0 dispatches
and a second qualifying tick 30 minutes later (inside the default 60 minute
cooldown) is suppressed with no state change. -/
theorem c1_gate_suppression_single_dispatch_witness :
    (handle_alerts defaultConfig (initState 0) [] 0 [alertA]).dispatched
      = some (combined_alert 0 [alertA]) ∧
    handle_alerts defaultConfig (handle_alerts defaultConfig (initState 0) [] 0 [alertA]).state
        [] 30 []
      = noHandle (handle_alerts defaultConfig (initState 0) [] 0 [alertA]).state :=
  (c1_gate_suppression_single_dispatch defaultConfig (initState 0) [] 0 [alertA]).2.2
    30 [] (List.cons_ne_nil _ _) (by norm_num [initState, defaultConfig]) rfl
    (by norm_num) (by norm_num [defaultConfig])

/-- C2: when neither suppression check fires, the gate dispatches exactly one
composite event whose severity is the maximum of the raw severities, appends
it to the bounded history, sets `last_alert_time`, increments the daily
counter by one, and invokes every registered callback in registration order
with that event, raising callbacks notwithstanding. -/
theorem c2_dispatch_builds_event_and_notifies (cfg : Config) (st : DetectorState)
    (cbs : List Callback) (now : ℚ) (alerts : List Alert)
    (hne : alerts ≠ [])
    (hc : st.alert_count_today < cfg.max_alerts_per_day)
    (hcool : cooldownActive cfg st now = false) :
    (handle_alerts cfg st cbs now alerts).dispatched = some (combined_alert now alerts) ∧
    (combined_alert now alerts).severity ∈ alerts.map Alert.severity ∧
    (∀ a ∈ alerts, a.severity ≤ (combined_alert now alerts).severity) ∧
    (handle_alerts cfg st cbs now alerts).state.detected_events.getLast?
      = some (combined_alert now alerts) ∧
    (handle_alerts cfg st cbs now alerts).state.detected_events
      <:+ st.detected_events ++ [combined_alert now alerts] ∧
    (handle_alerts cfg st cbs now alerts).state.last_alert_time = some now ∧
    (handle_alerts cfg st cbs now alerts).state.alert_count_today
      = st.alert_count_today + 1 ∧
    (handle_alerts cfg st cbs now alerts).invocations
      = cbs.map fun cb =>
          { event := combined_alert now alerts
            raised := cb.raises (combined_alert now alerts) } := by
  rw [handle_alerts_dispatch_eq cfg st cbs now alerts hc hcool]
  refine ⟨rfl, ?_, ?_, ?_, ?_, rfl, rfl, rfl⟩
  · exact listMaxD_mem _ _ (by simpa using hne)
  · intro a ha
    exact le_listMaxD _ _ _ (List.mem_map_of_mem _ ha)
  · exact truncHist_concat_getLast _ _
  · exact truncHist_suffix _

/-- Witness for C2: a dispatch from a fresh state with one registered
callback that raises; the event is dispatched and the callback is still
invoked with it. -/
theorem c2_dispatch_builds_event_and_notifies_witness :
    (handle_alerts defaultConfig (initState 0) [⟨fun _ => true⟩] 0 [alertA]).dispatched
      = some (combined_alert 0 [alertA]) ∧
    (handle_alerts defaultConfig (initState 0) [⟨fun _ => true⟩] 0 [alertA]).invocations
      = [{ event := combined_alert 0 [alertA], raised := true }] := by
  have h := c2_dispatch_builds_event_and_notifies defaultConfig (initState 0)
    [⟨fun _ => true⟩] 0 [alertA] (List.cons_ne_nil _ _)
    (by norm_num [initState, defaultConfig]) rfl
  exact ⟨h.1, h.2.2.2.2.2.2.2⟩

/-- C10: on a dispatched tick all gate state mutations happen independently
of the registered callbacks: for every callback list (in particular one in
which every callback raises) the resulting state equals the state obtained
with no callbacks at all, with the event appended, `last_alert_time` set and
the counter incremented. -/
theorem c10_state_mutations_precede_callbacks (cfg : Config) (st : DetectorState)
    (now : ℚ) (alerts : List Alert)
    (hc : st.alert_count_today < cfg.max_alerts_per_day)
    (hcool : cooldownActive cfg st now = false) :
    ∀ cbs : List Callback,
      (handle_alerts cfg st cbs now alerts).state
        = (handle_alerts cfg st [] now alerts).state ∧
      (handle_alerts cfg st cbs now alerts).state.last_alert_time = some now ∧
      (handle_alerts cfg st cbs now alerts).state.alert_count_today
        = st.alert_count_today + 1 ∧
      (handle_alerts cfg st cbs now alerts).state.detected_events.getLast?
        = some (combined_alert now alerts) := by
  intro cbs
  rw [handle_alerts_dispatch_eq cfg st cbs now alerts hc hcool,
    handle_alerts_dispatch_eq cfg st [] now alerts hc hcool]
  exact ⟨rfl, rfl, rfl, truncHist_concat_getLast _ _⟩

/-- Witness for C10: with two callbacks that both raise, the daily counter is
still incremented. -/
theorem c10_state_mutations_precede_callbacks_witness :
    (handle_alerts defaultConfig (initState 0) [⟨fun _ => true⟩, ⟨fun _ => true⟩]
        0 [alertA]).state.alert_count_today = 0 + 1 :=
  (c10_state_mutations_precede_callbacks defaultConfig (initState 0) 0 [alertA]
    (by norm_num [initState, defaultConfig]) rfl
    [⟨fun _ => true⟩, ⟨fun _ => true⟩]).2.2.1

lemma handle_alerts_state_cases (cfg : Config) (st : DetectorState) (cbs : List Callback)
    (now : ℚ) (alerts : List Alert) :
    (handle_alerts cfg st cbs now alerts).state = st ∨
    (handle_alerts cfg st cbs now alerts).state =
      { st with
        detected_events := truncHist (st.detected_events ++ [combined_alert now alerts])
        last_alert_time := some now
        alert_count_today := st.alert_count_today + 1 } := by
  by_cases h1 : st.alert_count_today ≥ cfg.max_alerts_per_day
  · left
    rw [handle_alerts_daily_limit _ _ _ _ _ h1]
    rfl
  · cases hB : cooldownActive cfg st now with
    | true =>
        left
        rw [handle_alerts_cooldown _ _ _ _ _ (by omega) hB]
        rfl
    | false =>
        right
        rw [handle_alerts_dispatch_eq _ _ _ _ _ (by omega) hB]

lemma handle_alerts_events_le (cfg : Config) (st : DetectorState) (cbs : List Callback)
    (now : ℚ) (alerts : List Alert)
    (h : st.detected_events.length ≤ max_event_history) :
    (handle_alerts cfg st cbs now alerts).state.detected_events.length ≤ max_event_history := by
  rcases handle_alerts_state_cases cfg st cbs now alerts with h1 | h1
  · rw [h1]; exact h
  · rw [h1]
    show (truncHist (st.detected_events ++ [combined_alert now alerts])).length ≤ max_event_history
    rw [truncHist_length]
    exact min_le_right _ _

lemma check_market_conditions_cases (cfg : Config) (rsqrt : ℚ → ℚ) (hist : HistStats)
    (baseline : Option CorrMatrix) (st : DetectorState) (cbs : List Callback)
    (now : ℚ) (fetched : List (Symbol × Option BarSeries)) :
    check_market_conditions cfg rsqrt hist baseline st cbs now fetched = noHandle st ∨
    ∃ alerts, check_market_conditions cfg rsqrt hist baseline st cbs now fetched
      = handle_alerts cfg st cbs now alerts := by
  simp only [check_market_conditions]
  split
  · exact Or.inl rfl
  · exact Or.inr ⟨_, rfl⟩

lemma check_market_conditions_events_le (cfg : Config) (rsqrt : ℚ → ℚ) (hist : HistStats)
    (baseline : Option CorrMatrix) (st : DetectorState) (cbs : List Callback)
    (now : ℚ) (fetched : List (Symbol × Option BarSeries))
    (h : st.detected_events.length ≤ max_event_history) :
    (check_market_conditions cfg rsqrt hist baseline st cbs now fetched).state.detected_events.length
      ≤ max_event_history := by
  rcases check_market_conditions_cases cfg rsqrt hist baseline st cbs now fetched with h1 | ⟨alerts, h1⟩
  · rw [h1]; exact h
  · rw [h1]; exact handle_alerts_events_le _ _ _ _ _ h

lemma monitoring_iteration_eq (cfg : Config) (rsqrt : ℚ → ℚ) (hist : HistStats)
    (baseline : Option CorrMatrix) (cbs : List Callback) (st : DetectorState)
    (current_date : ℤ) (now : ℚ) (fetched : List (Symbol × Option BarSeries)) :
    monitoring_iteration cfg rsqrt hist baseline cbs st current_date now fetched
      = ({ (check_market_conditions cfg rsqrt hist baseline
              (if current_date > st.reset_date then
                { st with alert_count_today := 0, reset_date := current_date }
              else st) cbs now fetched).state with last_check_time := some now },
         check_market_conditions cfg rsqrt hist baseline
            (if current_date > st.reset_date then
              { st with alert_count_today := 0, reset_date := current_date }
            else st) cbs now fetched) := rfl

lemma manual_check_state (cfg : Config) (rsqrt : ℚ → ℚ) (hist : HistStats)
    (st : DetectorState) (now : ℚ) (sym : Symbol) (data : Option BarSeries) :
    (manual_check cfg rsqrt hist st now sym data).1 = st := by
  unfold manual_check
  cases data with
  | none => rfl
  | some d =>
      dsimp only
      split
      · rfl
      · split
        · rfl
        · rfl

/-- C7: in every reachable detector state the event history holds at most
`max_event_history = 100` composite events, and on a dispatch the new history
is a suffix of the old history with the new event appended (oldest entries
evicted first, relative order preserved) of length `min (old+1) 100`. -/
theorem c7_event_history_bounded_fifo (cfg : Config) :
    (∀ st : DetectorState, Reach cfg st →
      st.detected_events.length ≤ max_event_history) ∧
    (∀ (st : DetectorState) (cbs : List Callback) (now : ℚ) (alerts : List Alert),
      st.alert_count_today < cfg.max_alerts_per_day →
      cooldownActive cfg st now = false →
      (handle_alerts cfg st cbs now alerts).state.detected_events
          <:+ st.detected_events ++ [combined_alert now alerts] ∧
      (handle_alerts cfg st cbs now alerts).state.detected_events.length
          = min (st.detected_events.length + 1) max_event_history) := by
  constructor
  · intro st h
    induction h with
    | init d => exact Nat.zero_le _
    | tick rsqrt hist baseline cbs st0 current_date now fetched _ ih =>
        rw [monitoring_iteration_eq]
        show (check_market_conditions _ _ _ _ _ _ _ _).state.detected_events.length ≤ _
        apply check_market_conditions_events_le
        split
        · exact ih
        · exact ih
    | manual rsqrt hist st0 now sym data _ ih =>
        rw [manual_check_state]
        exact ih
    | startStep st0 _ ih => exact ih
    | stopStep st0 _ ih => exact ih
  · intro st cbs now alerts hc hcool
    rw [handle_alerts_dispatch_eq _ _ _ _ _ hc hcool]
    refine ⟨truncHist_suffix _, ?_⟩
    show (truncHist (st.detected_events ++ [combined_alert now alerts])).length = _
    rw [truncHist_length, List.length_append, List.length_singleton]

/-- Witness for C7: the freshly initialised detector is reachable and its
history length is within the bound. -/
theorem c7_event_history_bounded_fifo_witness :
    (initState 0).detected_events.length ≤ max_event_history :=
  (c7_event_history_bounded_fifo defaultConfig).1 (initState 0) (Reach.init 0)

lemma check_market_conditions_count_reset (cfg : Config) (rsqrt : ℚ → ℚ) (hist : HistStats)
    (baseline : Option CorrMatrix) (st : DetectorState) (cbs : List Callback)
    (now : ℚ) (fetched : List (Symbol × Option BarSeries)) :
    ((check_market_conditions cfg rsqrt hist baseline st cbs now fetched).state.alert_count_today
        = st.alert_count_today ∨
     (check_market_conditions cfg rsqrt hist baseline st cbs now fetched).state.alert_count_today
        = st.alert_count_today + 1) ∧
    (check_market_conditions cfg rsqrt hist baseline st cbs now fetched).state.reset_date
        = st.reset_date := by
  rcases check_market_conditions_cases cfg rsqrt hist baseline st cbs now fetched with h | ⟨alerts, h⟩
  · rw [h]; exact ⟨Or.inl rfl, rfl⟩
  · rw [h]
    rcases handle_alerts_state_cases cfg st cbs now alerts with h2 | h2
    · rw [h2]; exact ⟨Or.inl rfl, rfl⟩
    · rw [h2]; exact ⟨Or.inr rfl, rfl⟩

/-- A detector state with `reset_date = 1` and two alerts already counted,
used for the C9 counterexample and witness. -/
def stC9 : DetectorState := { initState 1 with alert_count_today := 2 }

/-- Counterexample to C9 as stated: at a monitoring iteration whose current
local date (day 0) DIFFERS from `reset_date` (day 1) but is not later than
it, the code performs no reset: the counter stays 2 and `reset_date` stays 1,
while the claim asks for a reset at the first iteration whose date differs. -/
theorem c9_daily_reset_counterexample :
    (0 : ℤ) ≠ stC9.reset_date ∧
    (monitoring_iteration defaultConfig (fun q => q) [] none [] stC9 0 0 []).1.alert_count_today
      = 2 ∧
    (monitoring_iteration defaultConfig (fun q => q) [] none [] stC9 0 0 []).1.reset_date = 1 := by
  refine ⟨by decide, rfl, rfl⟩

/-- C9 (amended): `alert_count_today` is reset to 0 and `reset_date` set to
the current date exactly at an iteration whose wall-clock local date is
LATER than `reset_date` (the code compares `current_date > self.reset_date`,
not mere inequality); the check runs once per iteration before the
evaluation tick, which can only keep the counter or increment it by one —
no other step of the loop resets it. -/
theorem c9_daily_reset_amended (cfg : Config) (rsqrt : ℚ → ℚ) (hist : HistStats)
    (baseline : Option CorrMatrix) (cbs : List Callback) (st : DetectorState)
    (current_date : ℤ) (now : ℚ) (fetched : List (Symbol × Option BarSeries)) :
    (current_date > st.reset_date →
      (monitoring_iteration cfg rsqrt hist baseline cbs st current_date now fetched).1.reset_date
          = current_date ∧
      ((monitoring_iteration cfg rsqrt hist baseline cbs st current_date now fetched).1.alert_count_today
          = 0 ∨
       (monitoring_iteration cfg rsqrt hist baseline cbs st current_date now fetched).1.alert_count_today
          = 0 + 1)) ∧
    (¬ current_date > st.reset_date →
      (monitoring_iteration cfg rsqrt hist baseline cbs st current_date now fetched).1.reset_date
          = st.reset_date ∧
      ((monitoring_iteration cfg rsqrt hist baseline cbs st current_date now fetched).1.alert_count_today
          = st.alert_count_today ∨
       (monitoring_iteration cfg rsqrt hist baseline cbs st current_date now fetched).1.alert_count_today
          = st.alert_count_today + 1)) := by
  rw [monitoring_iteration_eq]
  constructor
  · intro h
    rw [if_pos h]
    have hg := check_market_conditions_count_reset cfg rsqrt hist baseline
      { st with alert_count_today := 0, reset_date := current_date } cbs now fetched
    exact ⟨hg.2, hg.1⟩
  · intro h
    rw [if_neg h]
    have hg := check_market_conditions_count_reset cfg rsqrt hist baseline st cbs now fetched
    exact ⟨hg.2, hg.1⟩

/-- Witness for the amended C9: iterating `stC9` (reset day 1, counter 2) on
day 2 resets the date to 2 and the counter to 0 (no alerts on this tick). -/
theorem c9_daily_reset_amended_witness :
    (monitoring_iteration defaultConfig (fun q => q) [] none [] stC9 2 0 []).1.reset_date = 2 ∧
    ((monitoring_iteration defaultConfig (fun q => q) [] none [] stC9 2 0 []).1.alert_count_today
        = 0 ∨
     (monitoring_iteration defaultConfig (fun q => q) [] none [] stC9 2 0 []).1.alert_count_today
        = 0 + 1) :=
  (c9_daily_reset_amended defaultConfig (fun q => q) [] none [] stC9 2 0 []).1 (by decide)

lemma handle_alerts_dispatched_none_iff (cfg : Config) (st : DetectorState)
    (cbs : List Callback) (now : ℚ) (alerts : List Alert) :
    (handle_alerts cfg st cbs now alerts).dispatched = none ↔
      (st.alert_count_today ≥ cfg.max_alerts_per_day ∨ cooldownActive cfg st now = true) := by
  by_cases h1 : st.alert_count_today ≥ cfg.max_alerts_per_day
  · rw [handle_alerts_daily_limit _ _ _ _ _ h1]
    exact iff_of_true rfl (Or.inl h1)
  · cases hB : cooldownActive cfg st now with
    | true =>
        rw [handle_alerts_cooldown _ _ _ _ _ (by omega) hB]
        exact iff_of_true rfl (Or.inr rfl)
    | false =>
        rw [handle_alerts_dispatch_eq _ _ _ _ _ (by omega) hB]
        constructor
        · intro h
          exact absurd h (Option.some_ne_none _)
        · intro h
          rcases h with h | h
          · exact absurd h h1
          · exact absurd h Bool.false_ne_true

/-- C8: `manual_check` never mutates the detector state (in particular not
`alert_count_today`, `last_alert_time` or the event history) and performs no
callback invocation, even when it produces alerts; when it produced at least
one alert, its `notification_suppressed` flag is `true` exactly when the
alert gate would currently suppress a real dispatch, with reason
`daily_limit` when the daily limit is reached and `cooldown` otherwise. -/
theorem c8_manual_check_frame_and_suppression_report (cfg : Config) (rsqrt : ℚ → ℚ)
    (hist : HistStats) (st : DetectorState) (now : ℚ) (sym : Symbol)
    (data : Option BarSeries) :
    (manual_check cfg rsqrt hist st now sym data).1 = st ∧
    (manual_check cfg rsqrt hist st now sym data).2.2 = [] ∧
    ((manual_check cfg rsqrt hist st now sym data).2.1.alerts.isEmpty = false →
      (∀ cbs : List Callback,
        ((manual_check cfg rsqrt hist st now sym data).2.1.notification_suppressed = true ↔
          (handle_alerts cfg st cbs now
            (manual_check cfg rsqrt hist st now sym data).2.1.alerts).dispatched = none)) ∧
      (st.alert_count_today ≥ cfg.max_alerts_per_day →
        (manual_check cfg rsqrt hist st now sym data).2.1.suppression_reason
          = some "daily_limit") ∧
      ((manual_check cfg rsqrt hist st now sym data).2.1.notification_suppressed = true →
        st.alert_count_today < cfg.max_alerts_per_day →
        (manual_check cfg rsqrt hist st now sym data).2.1.suppression_reason
          = some "cooldown")) := by
  cases data with
  | none => exact ⟨rfl, rfl, fun h => Bool.noConfusion h⟩
  | some d =>
      by_cases hd : d.isEmpty = true
      · have he : manual_check cfg rsqrt hist st now sym (some d)
            = (st, { ok := false, alerts := [], alert_count := 0,
                     notification_suppressed := false, suppression_reason := none }, []) := by
          simp only [manual_check]
          rw [if_pos hd]
        rw [he]
        exact ⟨rfl, rfl, fun h => Bool.noConfusion h⟩
      · by_cases hc :
          check_volatility cfg rsqrt hist now [(sym, d)] ++ check_volume cfg hist now [(sym, d)]
              ≠ [] ∧
            (st.alert_count_today ≥ cfg.max_alerts_per_day ∨ cooldownActive cfg st now = true)
        · have he : manual_check cfg rsqrt hist st now sym (some d)
              = (st,
                 { ok := true
                   alerts := check_volatility cfg rsqrt hist now [(sym, d)]
                       ++ check_volume cfg hist now [(sym, d)]
                   alert_count := (check_volatility cfg rsqrt hist now [(sym, d)]
                       ++ check_volume cfg hist now [(sym, d)]).length
                   notification_suppressed := true
                   suppression_reason :=
                     some (if st.alert_count_today ≥ cfg.max_alerts_per_day then
                             "daily_limit"
                           else "cooldown") }, []) := by
            simp only [manual_check]
            rw [if_neg hd, if_pos hc]
          rw [he]
          refine ⟨rfl, rfl, fun _ => ⟨?_, ?_, ?_⟩⟩
          · intro cbs
            exact iff_of_true rfl ((handle_alerts_dispatched_none_iff _ _ _ _ _).mpr hc.2)
          · intro hge
            rw [if_pos hge]
          · intro _ hlt
            rw [if_neg (by omega)]
        · have he : manual_check cfg rsqrt hist st now sym (some d)
              = (st,
                 { ok := true
                   alerts := check_volatility cfg rsqrt hist now [(sym, d)]
                       ++ check_volume cfg hist now [(sym, d)]
                   alert_count := (check_volatility cfg rsqrt hist now [(sym, d)]
                       ++ check_volume cfg hist now [(sym, d)]).length
                   notification_suppressed := false
                   suppression_reason := none }, []) := by
            simp only [manual_check]
            rw [if_neg hd, if_neg hc]
          rw [he]
          refine ⟨rfl, rfl, fun h => ?_⟩
          have hne : check_volatility cfg rsqrt hist now [(sym, d)]
              ++ check_volume cfg hist now [(sym, d)] ≠ [] := by
            intro hnil
            rw [hnil] at h
            exact Bool.noConfusion h
          refine ⟨?_, ?_, ?_⟩
          · intro cbs
            refine iff_of_false Bool.false_ne_true (fun hn => ?_)
            exact hc ⟨hne, (handle_alerts_dispatched_none_iff _ _ _ _ _).mp hn⟩
          · intro hge
            exact absurd ⟨hne, Or.inl hge⟩ hc
          · intro hsup
            exact absurd hsup Bool.false_ne_true

/-- Baseline stats used by the C8 witness (mean volume 10). -/
def statsW8 : SymbolStats :=
  { mean_returns := 0, std_returns := 0, mean_volume := 10, std_volume := 0 }

/-- Baseline store used by the C8 witness. -/
def histW8 : HistStats := [("B", statsW8)]

/-- One bar with volume 100: volume ratio 10 exceeds the default threshold 5. -/
def dataW8 : BarSeries := [{ close := 1, volume := 100 }]

/-- A state that already reached the default daily alert limit. -/
def stW8 : DetectorState := { initState 0 with alert_count_today := 3 }

/-- Witness for C8: a manual check that produces a volume alert while the
daily limit is reached leaves the state untouched and reports
`daily_limit`. -/
theorem c8_manual_check_frame_and_suppression_report_witness :
    (manual_check defaultConfig (fun q => q) histW8 stW8 0 "B" (some dataW8)).1 = stW8 ∧
    (manual_check defaultConfig (fun q => q) histW8 stW8 0 "B"
        (some dataW8)).2.1.suppression_reason = some "daily_limit" := by
  have h := c8_manual_check_frame_and_suppression_report defaultConfig (fun q => q)
    histW8 stW8 0 "B" (some dataW8)
  refine ⟨h.1, (h.2.2 ?_).2.1 (by decide)⟩
  simp only [manual_check, check_volatility, check_volume, volAlertsFor, volumeAlertsFor,
    volume_ratio_val, volatility_ratio_val, lookupStats, histW8, statsW8, dataW8, stW8,
    initState, defaultConfig, pct_change, sampleVarQ, meanQ, cooldownActive,
    List.flatMap_cons, List.flatMap_nil, List.map_cons, List.map_nil, List.getLast?,
    List.isEmpty_cons, List.sum_cons, List.sum_nil, List.length_cons, List.length_nil]
  norm_num

lemma nodup_pair_value_eq {β : Type} (l : List (Symbol × β)) (h : (l.map Prod.fst).Nodup)
    {k : Symbol} {b b' : β} (h1 : (k, b) ∈ l) (h2 : (k, b') ∈ l) : b = b' := by
  induction l with
  | nil => cases h1
  | cons p rest ih =>
      rw [List.map_cons, List.nodup_cons] at h
      rcases List.mem_cons.mp h1 with e1 | m1
      · rcases List.mem_cons.mp h2 with e2 | m2
        · rw [← e1] at e2
          exact ((Prod.mk.injEq _ _ _ _).mp e2.symm).2
        · exfalso
          apply h.1
          rw [← e1]
          exact List.mem_map.mpr ⟨(k, b'), m2, rfl⟩
      · rcases List.mem_cons.mp h2 with e2 | m2
        · exfalso
          apply h.1
          rw [← e2]
          exact List.mem_map.mpr ⟨(k, b), m1, rfl⟩
        · exact ih h.2 m1 m2

lemma volAlertsFor_symbol (cfg : Config) (rsqrt : ℚ → ℚ) (hist : HistStats) (now : ℚ)
    (s : Symbol) (d : BarSeries) {a : Alert} (ha : a ∈ volAlertsFor cfg rsqrt hist now s d) :
    a.symbol = some s := by
  unfold volAlertsFor at ha
  cases hl : lookupStats hist s with
  | none => rw [hl] at ha; cases ha
  | some stats =>
      rw [hl] at ha
      dsimp only at ha
      split at ha
      · rw [List.mem_singleton] at ha
        subst ha
        rfl
      · cases ha

lemma volumeAlertsFor_symbol (cfg : Config) (hist : HistStats) (now : ℚ)
    (s : Symbol) (d : BarSeries) {a : Alert} (ha : a ∈ volumeAlertsFor cfg hist now s d) :
    a.symbol = some s := by
  unfold volumeAlertsFor at ha
  cases hg : (d.map Bar.volume).getLast? with
  | none => rw [hg] at ha; cases ha
  | some v =>
      rw [hg] at ha
      dsimp only at ha
      cases hl : lookupStats hist s with
      | none => rw [hl] at ha; cases ha
      | some stats =>
          rw [hl] at ha
          dsimp only at ha
          split at ha
          · rw [List.mem_singleton] at ha
            subst ha
            rfl
          · cases ha

lemma check_volatility_filter (cfg : Config) (rsqrt : ℚ → ℚ) (hist : HistStats) (now : ℚ)
    (cd : CurrentData) (sym : Symbol) (data : BarSeries)
    (hnd : (cd.map Prod.fst).Nodup) (hmem : (sym, data) ∈ cd) :
    (check_volatility cfg rsqrt hist now cd).filter (fun a => a.symbol == some sym)
      = volAlertsFor cfg rsqrt hist now sym data := by
  induction cd with
  | nil => cases hmem
  | cons p rest ih =>
      rw [List.map_cons, List.nodup_cons] at hnd
      rw [show check_volatility cfg rsqrt hist now (p :: rest)
          = volAlertsFor cfg rsqrt hist now p.1 p.2 ++ check_volatility cfg rsqrt hist now rest
        from List.flatMap_cons p rest _, List.filter_append]
      rcases List.mem_cons.mp hmem with e | m
      · have hp1 : p.1 = sym := by rw [← e]
        have hp2 : p.2 = data := by rw [← e]
        have hall : (volAlertsFor cfg rsqrt hist now p.1 p.2).filter
            (fun a => a.symbol == some sym) = volAlertsFor cfg rsqrt hist now p.1 p.2 := by
          apply List.filter_eq_self.mpr
          intro a ha
          rw [volAlertsFor_symbol cfg rsqrt hist now p.1 p.2 ha, hp1]
          exact beq_self_eq_true _
        have hrest : (check_volatility cfg rsqrt hist now rest).filter
            (fun a => a.symbol == some sym) = [] := by
          rw [List.filter_eq_nil_iff]
          intro a ha hbeq
          obtain ⟨q, hq, haq⟩ := List.mem_flatMap.mp ha
          rw [volAlertsFor_symbol cfg rsqrt hist now q.1 q.2 haq] at hbeq
          have hq1 : q.1 = sym := Option.some.inj (beq_iff_eq.mp hbeq)
          apply hnd.1
          rw [hp1, ← hq1]
          exact List.mem_map.mpr ⟨q, hq, rfl⟩
        rw [hall, hrest, List.append_nil, hp1, hp2]
      · have hne : p.1 ≠ sym := by
          intro hEq
          apply hnd.1
          rw [hEq]
          exact List.mem_map_of_mem Prod.fst m
        have hfirst : (volAlertsFor cfg rsqrt hist now p.1 p.2).filter
            (fun a => a.symbol == some sym) = [] := by
          rw [List.filter_eq_nil_iff]
          intro a ha hbeq
          rw [volAlertsFor_symbol cfg rsqrt hist now p.1 p.2 ha] at hbeq
          exact hne (Option.some.inj (beq_iff_eq.mp hbeq))
        rw [hfirst, List.nil_append]
        exact ih hnd.2 m

lemma check_volume_filter (cfg : Config) (hist : HistStats) (now : ℚ)
    (cd : CurrentData) (sym : Symbol) (data : BarSeries)
    (hnd : (cd.map Prod.fst).Nodup) (hmem : (sym, data) ∈ cd) :
    (check_volume cfg hist now cd).filter (fun a => a.symbol == some sym)
      = volumeAlertsFor cfg hist now sym data := by
  induction cd with
  | nil => cases hmem
  | cons p rest ih =>
      rw [List.map_cons, List.nodup_cons] at hnd
      rw [show check_volume cfg hist now (p :: rest)
          = volumeAlertsFor cfg hist now p.1 p.2 ++ check_volume cfg hist now rest
        from List.flatMap_cons p rest _, List.filter_append]
      rcases List.mem_cons.mp hmem with e | m
      · have hp1 : p.1 = sym := by rw [← e]
        have hp2 : p.2 = data := by rw [← e]
        have hall : (volumeAlertsFor cfg hist now p.1 p.2).filter
            (fun a => a.symbol == some sym) = volumeAlertsFor cfg hist now p.1 p.2 := by
          apply List.filter_eq_self.mpr
          intro a ha
          rw [volumeAlertsFor_symbol cfg hist now p.1 p.2 ha, hp1]
          exact beq_self_eq_true _
        have hrest : (check_volume cfg hist now rest).filter
            (fun a => a.symbol == some sym) = [] := by
          rw [List.filter_eq_nil_iff]
          intro a ha hbeq
          obtain ⟨q, hq, haq⟩ := List.mem_flatMap.mp ha
          rw [volumeAlertsFor_symbol cfg hist now q.1 q.2 haq] at hbeq
          have hq1 : q.1 = sym := Option.some.inj (beq_iff_eq.mp hbeq)
          apply hnd.1
          rw [hp1, ← hq1]
          exact List.mem_map.mpr ⟨q, hq, rfl⟩
        rw [hall, hrest, List.append_nil, hp1, hp2]
      · have hne : p.1 ≠ sym := by
          intro hEq
          apply hnd.1
          rw [hEq]
          exact List.mem_map_of_mem Prod.fst m
        have hfirst : (volumeAlertsFor cfg hist now p.1 p.2).filter
            (fun a => a.symbol == some sym) = [] := by
          rw [List.filter_eq_nil_iff]
          intro a ha hbeq
          rw [volumeAlertsFor_symbol cfg hist now p.1 p.2 ha] at hbeq
          exact hne (Option.some.inj (beq_iff_eq.mp hbeq))
        rw [hfirst, List.nil_append]
        exact ih hnd.2 m

/-- C4: for a symbol with current data, the volatility evaluator emits an
alert for that symbol exactly when its annualised volatility ratio exceeds
`volatility_threshold`, with severity `clip((ratio-t)/(2t),0,1)`; a symbol
without a baseline entry yields no volatility alert. -/
theorem c4_volatility_alert_iff (cfg : Config) (rsqrt : ℚ → ℚ) (hist : HistStats)
    (now : ℚ) (cd : CurrentData) (sym : Symbol) (data : BarSeries)
    (hnd : (cd.map Prod.fst).Nodup) (hmem : (sym, data) ∈ cd) :
    (∀ stats, lookupStats hist sym = some stats →
      (check_volatility cfg rsqrt hist now cd).filter (fun a => a.symbol == some sym)
        = (if volatility_ratio_val rsqrt stats data > cfg.volatility_threshold then
            [{ type := .volatility
               symbol := some sym
               timestamp := now
               severity := clip ((volatility_ratio_val rsqrt stats data
                   - cfg.volatility_threshold) / (2 * cfg.volatility_threshold)) 0 1
               trigger_value := volatility_ratio_val rsqrt stats data
               threshold := cfg.volatility_threshold }]
          else [])) ∧
    (lookupStats hist sym = none →
      (check_volatility cfg rsqrt hist now cd).filter (fun a => a.symbol == some sym) = []) := by
  constructor
  · intro stats hl
    rw [check_volatility_filter cfg rsqrt hist now cd sym data hnd hmem]
    unfold volAlertsFor
    rw [hl]
    dsimp only
    split
    · simp only [calculate_severity]
      rw [min_one_max_zero]
    · rfl
  · intro hl
    rw [check_volatility_filter cfg rsqrt hist now cd sym data hnd hmem]
    unfold volAlertsFor
    rw [hl]

/-- C5: for a symbol with non-empty current data and a baseline, the volume
evaluator emits an alert for that symbol exactly when the last bar volume
over the baseline mean volume exceeds `volume_threshold`, with severity
`clip((ratio-t)/(3t),0,1)`. -/
theorem c5_volume_alert_iff (cfg : Config) (hist : HistStats)
    (now : ℚ) (cd : CurrentData) (sym : Symbol) (data : BarSeries)
    (hnd : (cd.map Prod.fst).Nodup) (hmem : (sym, data) ∈ cd) (hne : data ≠ []) :
    (∀ stats, lookupStats hist sym = some stats →
      (check_volume cfg hist now cd).filter (fun a => a.symbol == some sym)
        = (if volume_ratio_val stats data > cfg.volume_threshold then
            [{ type := .volume
               symbol := some sym
               timestamp := now
               severity := clip ((volume_ratio_val stats data - cfg.volume_threshold)
                   / (3 * cfg.volume_threshold)) 0 1
               trigger_value := volume_ratio_val stats data
               threshold := cfg.volume_threshold }]
          else [])) ∧
    (lookupStats hist sym = none →
      (check_volume cfg hist now cd).filter (fun a => a.symbol == some sym) = []) := by
  have hgl : ∃ v, (data.map Bar.volume).getLast? = some v := by
    cases hg : (data.map Bar.volume).getLast? with
    | none =>
        exact absurd (List.map_eq_nil_iff.mp (List.getLast?_eq_none_iff.mp hg)) hne
    | some v => exact ⟨v, rfl⟩
  obtain ⟨v, hv⟩ := hgl
  constructor
  · intro stats hl
    rw [check_volume_filter cfg hist now cd sym data hnd hmem]
    unfold volumeAlertsFor
    rw [hv]
    dsimp only
    rw [hl]
    dsimp only
    split
    · simp only [calculate_severity]
      rw [min_one_max_zero]
    · rfl
  · intro hl
    rw [check_volume_filter cfg hist now cd sym data hnd hmem]
    unfold volumeAlertsFor
    rw [hv]
    dsimp only
    rw [hl]

/-- C6: the correlation-breakdown evaluator emits at most one alert per tick,
none unless at least two symbols have current data and a baseline matrix
exists; given both, it emits exactly one symbol-less alert when the mean
absolute correlation drift exceeds `1 - correlation_threshold`, else none. -/
theorem c6_correlation_breakdown_alert_iff (cfg : Config) (rsqrt : ℚ → ℚ)
    (baseline : Option CorrMatrix) (now : ℚ) (cd : CurrentData) :
    (check_correlation_breakdown cfg rsqrt baseline now cd).length ≤ 1 ∧
    (cd.length < 2 → check_correlation_breakdown cfg rsqrt baseline now cd = []) ∧
    (baseline = none → check_correlation_breakdown cfg rsqrt baseline now cd = []) ∧
    (∀ base, baseline = some base → 2 ≤ cd.length →
      check_correlation_breakdown cfg rsqrt baseline now cd
        = (if correlation_change_val rsqrt base cd > 1 - cfg.correlation_threshold then
            [{ type := .correlation
               symbol := none
               timestamp := now
               severity := clip ((correlation_change_val rsqrt base cd
                   - (1 - cfg.correlation_threshold))
                  / (1 - (1 - cfg.correlation_threshold))) 0 1
               trigger_value := correlation_change_val rsqrt base cd
               threshold := 1 - cfg.correlation_threshold }]
          else [])) := by
  refine ⟨?_, ?_, ?_, ?_⟩
  · unfold check_correlation_breakdown
    split
    · exact Nat.zero_le 1
    · cases baseline with
      | none => exact Nat.zero_le 1
      | some base =>
          dsimp only
          split
          · exact le_refl 1
          · exact Nat.zero_le 1
  · intro h
    unfold check_correlation_breakdown
    rw [if_pos h]
  · intro h
    subst h
    unfold check_correlation_breakdown
    split
    · rfl
    · rfl
  · intro base hb h2
    subst hb
    unfold check_correlation_breakdown
    rw [if_neg (by omega)]
    dsimp only
    split
    · simp only [calculate_severity]
      rw [min_one_max_zero]
    · rfl

/-- Baseline stats for the C4 witness: daily-return std 1/252 so that the
annualised baseline volatility is exactly 1 under the identity square
root. -/
def statsW4 : SymbolStats :=
  { mean_returns := 0, std_returns := 1/252, mean_volume := 1, std_volume := 0 }

/-- Bars with closes 1, 2, 1: intraday returns [1, -1/2], sample variance
9/8, hence (with the identity in place of the square root) a volatility
ratio of 27. -/
def dataW4 : BarSeries := [⟨1, 0⟩, ⟨2, 0⟩, ⟨1, 0⟩]

def histW4 : HistStats := [("V", statsW4)]

def cdW4 : CurrentData := [("V", dataW4)]

/-- Witness for C4: the symbol "V" (ratio 27 above threshold 3.5) receives
exactly one volatility alert with the clip severity. -/
theorem c4_volatility_alert_iff_witness :
    (check_volatility defaultConfig (fun q => q) histW4 0 cdW4).filter
        (fun a => a.symbol == some "V")
      = [{ type := .volatility
           symbol := some "V"
           timestamp := 0
           severity := clip ((volatility_ratio_val (fun q => q) statsW4 dataW4
               - defaultConfig.volatility_threshold)
              / (2 * defaultConfig.volatility_threshold)) 0 1
           trigger_value := volatility_ratio_val (fun q => q) statsW4 dataW4
           threshold := defaultConfig.volatility_threshold }] := by
  have h := (c4_volatility_alert_iff defaultConfig (fun q => q) histW4 0 cdW4 "V" dataW4
    (by simp [cdW4]) (List.mem_singleton_self _)).1 statsW4 rfl
  have hr : volatility_ratio_val (fun q => q) statsW4 dataW4 = 27 := by
    norm_num [volatility_ratio_val, statsW4, dataW4, pct_change, sampleVarQ, meanQ,
      List.map_cons, List.map_nil, List.sum_cons, List.sum_nil,
      List.length_cons, List.length_nil]
  have hgt : volatility_ratio_val (fun q => q) statsW4 dataW4
      > defaultConfig.volatility_threshold := by
    rw [hr]
    norm_num [defaultConfig]
  rw [h, if_pos hgt]

/-- Baseline stats for the C5 witness (mean volume 20). -/
def statsW5 : SymbolStats :=
  { mean_returns := 0, std_returns := 0, mean_volume := 20, std_volume := 0 }

/-- Two bars whose most recent volume is 200: volume ratio 10. -/
def dataW5 : BarSeries := [⟨1, 50⟩, ⟨1, 200⟩]

def histW5 : HistStats := [("W", statsW5)]

def cdW5 : CurrentData := [("W", dataW5)]

/-- Witness for C5: the symbol "W" (ratio 10 above threshold 5) receives
exactly one volume alert with the clip severity. -/
theorem c5_volume_alert_iff_witness :
    (check_volume defaultConfig histW5 0 cdW5).filter (fun a => a.symbol == some "W")
      = [{ type := .volume
           symbol := some "W"
           timestamp := 0
           severity := clip ((volume_ratio_val statsW5 dataW5
               - defaultConfig.volume_threshold)
              / (3 * defaultConfig.volume_threshold)) 0 1
           trigger_value := volume_ratio_val statsW5 dataW5
           threshold := defaultConfig.volume_threshold }] := by
  have h := (c5_volume_alert_iff defaultConfig histW5 0 cdW5 "W" dataW5
    (by simp [cdW5]) (List.mem_singleton_self _) (by simp [dataW5])).1 statsW5 rfl
  have hr : volume_ratio_val statsW5 dataW5 = 10 := by
    norm_num [volume_ratio_val, statsW5, dataW5, List.map_cons, List.map_nil,
      List.getLast?]
  have hgt : volume_ratio_val statsW5 dataW5 > defaultConfig.volume_threshold := by
    rw [hr]
    norm_num [defaultConfig]
  rw [h, if_pos hgt]

/-- Two symbols with the same close series 1, 2, 1 for the C6 witness. -/
def dataW6 : BarSeries := [⟨1, 0⟩, ⟨2, 0⟩, ⟨1, 0⟩]

def cdW6 : CurrentData := [("X", dataW6), ("Y", dataW6)]

/-- The all-zero baseline correlation matrix used by the C6 witness. -/
def baseW6 : CorrMatrix := fun _ _ => 0

/-- Witness for C6: with two symbols, an existing baseline matrix and a mean
absolute correlation drift of 8/9 (above the default trigger level 0.15),
exactly one symbol-less correlation alert is emitted. -/
theorem c6_correlation_breakdown_alert_iff_witness :
    check_correlation_breakdown defaultConfig (fun q => q) (some baseW6) 0 cdW6
      = [{ type := .correlation
           symbol := none
           timestamp := 0
           severity := clip ((correlation_change_val (fun q => q) baseW6 cdW6
               - (1 - defaultConfig.correlation_threshold))
              / (1 - (1 - defaultConfig.correlation_threshold))) 0 1
           trigger_value := correlation_change_val (fun q => q) baseW6 cdW6
           threshold := 1 - defaultConfig.correlation_threshold }] := by
  have h := (c6_correlation_breakdown_alert_iff defaultConfig (fun q => q) (some baseW6)
    0 cdW6).2.2.2 baseW6 rfl (by simp [cdW6])
  have hr : correlation_change_val (fun q => q) baseW6 cdW6 = 8/9 := by
    norm_num [correlation_change_val, corrQ, covSumQ, meanQ, pct_change, cdW6, dataW6,
      baseW6, List.map_cons, List.map_nil, List.sum_cons, List.sum_nil,
      List.length_cons, List.length_nil, List.zip]
  have hgt : correlation_change_val (fun q => q) baseW6 cdW6
      > 1 - defaultConfig.correlation_threshold := by
    rw [hr]
    norm_num [defaultConfig]
  rw [h, if_pos hgt]

end BlackSwan
